import Mathlib

/-!
Verification of the rin-curium distributed command bus against its design
specification.  Each definition is a shallow embedding of the corresponding
Python source construct (file and line references in the doc comments);
theorems at the end of the file settle the specification's claims.
-/

set_option autoImplicit false

namespace Curium

/-- JSON-style scalar values appearing in command option fields and responses
(`serializers.py` delegates the byte coding of these to `rin.jsonutils`). -/
inductive Value where
  | str (s : String)
  | int (n : Int)
  | bool (b : Bool)
  | null
  deriving DecidableEq

/-- A Python `dict` with string keys, modelled as an association list whose
keys are unique (Python dict keys are always unique). -/
abbrev Dict := List (String × Value)

/-- Keys of a dict. -/
def Dict.keys (d : Dict) : List String := d.map Prod.fst

/-- `d[k]` / `k in d`: the value stored under `k`, if any. -/
def Dict.lookup : Dict → String → Option Value
  | [], _ => none
  | (k', v') :: rest, k => if k = k' then some v' else Dict.lookup rest k

/-- Removal of key `k` (the effect of `d.pop(k)` on the mapping).  Since dict
keys are unique, dropping every pair with key `k` removes exactly one entry. -/
def Dict.erase : Dict → String → Dict
  | [], _ => []
  | (k', v') :: rest, k => if k' = k then Dict.erase rest k else (k', v') :: Dict.erase rest k

/-- Python runtime errors that the embedded code can raise. -/
inductive PyError where
  | typeError            -- e.g. `0 >= None`
  | attributeError       -- e.g. `super().set_response` when no ancestor defines it
  | unboundLocalError    -- reading a local whose binding was deleted
  deriving DecidableEq

/-- The curium exception taxonomy of `exc.py` (only the kinds the claims need). -/
inductive CuriumError where
  | connectionFailed
  | notConnected
  | serverDisconnected
  | invalidChannel
  | invalidFormat
  | commandNotRegistered
  | commandHasRegistered
  deriving DecidableEq

/-! ## Response handler base (`response_handler_base.py`) -/

/-- State of a `ResponseHandlerBase`: the `_results` deque, the
`_num_received_results` counter, the `_finalized` one-shot `Event`, and the
`num_receivers` class attribute (`None` until `set_num_receivers`). -/
structure ResponseHandlerState where
  results : List Value
  numReceivedResults : Nat
  finalized : Bool
  numReceivers : Option Nat
  deriving DecidableEq

/-- `ResponseHandlerBase.__init__`: empty deque, zero counter, unset event,
`num_receivers` left at its class default `None`. -/
def ResponseHandlerBase.initState : ResponseHandlerState :=
  { results := [], numReceivedResults := 0, finalized := false, numReceivers := none }

/-- `ResponseHandlerBase.add_response` (lines 31-35): append the response and
increment `_num_received_results`.  It does not read or write the finalized
event, and it does not call `set_response`. -/
def ResponseHandlerBase.add_response (st : ResponseHandlerState) (v : Value) :
    ResponseHandlerState :=
  { st with results := st.results ++ [v],
            numReceivedResults := st.numReceivedResults + 1 }

/-- `ResponseHandlerBase.set_num_receivers`. -/
def ResponseHandlerBase.set_num_receivers (st : ResponseHandlerState) (n : Option Nat) :
    ResponseHandlerState :=
  { st with numReceivers := n }

/-- `ResponseHandlerBase.get` once waiting is resolved: if the `_finalized`
event is set it returns `list(self._results)`, otherwise (wait timed out)
it returns `None`. -/
def ResponseHandlerBase.get (st : ResponseHandlerState) : Option (List Value) :=
  if st.finalized then some st.results else none

/-- One state-changing operation on a handler, as performed by the threads of
the node: `add` is `add_response`, `fin b` is a `finalize()` call whose
`finalize_internal` returned verdict `b`, `pop` is the `popleft` performed by
`__next__` after it acquired the iteration semaphore (so the deque is
nonempty). -/
inductive RHOp where
  | add (v : Value)
  | fin (verdict : Bool)
  | pop
  deriving DecidableEq

/-- Whether an operation is a `finalize()` call (no mutation of the deque). -/
def RHOp.isFin : RHOp → Bool
  | .fin _ => true
  | _ => false

/-- Effect of one operation on the base-class state.  `finalize` (lines 45-50)
sets the `_finalized` event exactly when `finalize_internal` returns `True`;
no code path ever clears the event. -/
def ResponseHandlerBase.applyOp (st : ResponseHandlerState) : RHOp → ResponseHandlerState
  | .add v => ResponseHandlerBase.add_response st v
  | .fin true => { st with finalized := true }
  | .fin false => st
  | .pop => { st with results := st.results.tail }

/-- A sequence of operations applied left to right. -/
def ResponseHandlerBase.applyOps (st : ResponseHandlerState) (ops : List RHOp) :
    ResponseHandlerState :=
  ops.foldl ResponseHandlerBase.applyOp st

/-! ## BlockUntilAllReceived and UpdateTimeoutPerReceive (`response_handles.py`) -/

/-- State of a `BlockUntilAllReceived` handler: the base state plus the
`timeout_at` attribute and the `RuntimeWarning` emitted by `__init__` when no
timeout was given.  Wall-clock instants (`time.time()`) are modelled as
integers. -/
structure BlockUntilAllReceivedState where
  base : ResponseHandlerState
  timeoutAt : Option ℤ
  warnedNoTimeout : Bool
  deriving DecidableEq

/-- `BlockUntilAllReceived.__init__(timeout)` at wall-clock `now`:
`timeout_at = timeout`, then `timeout_at += time.time()` when a timeout was
supplied; warns when `timeout is None`. -/
def BlockUntilAllReceived.init (timeout : Option ℤ) (now : ℤ) :
    BlockUntilAllReceivedState :=
  { base := ResponseHandlerBase.initState,
    timeoutAt := timeout.map (fun t => t + now),
    warnedNoTimeout := timeout.isNone }

/-- Python's `self.num_received_results is None` on line 20 of
`response_handles.py`.  The `num_received_results` property returns the
`int` counter `_num_received_results`, which `__init__` sets to `0` and
`add_response` increments; it is never `None`, so this test is identically
`False`. -/
def numReceivedResultsIsNone (_st : ResponseHandlerState) : Bool := false

/-- Python `a >= b` for an `int` `a` and an `Optional[int]` `b`: comparing an
`int` with `None` raises `TypeError`. -/
def pyGeNat (a : Nat) : Option Nat → Except PyError Bool
  | none => .error .typeError
  | some b => .ok (decide (a ≥ b))

/-- Python `a > b` for a float `a` and an `Optional[float]` `b`: comparing a
float with `None` raises `TypeError`. -/
def pyGtInt (a : ℤ) : Option ℤ → Except PyError Bool
  | none => .error .typeError
  | some b => .ok (decide (a > b))

/-- `BlockUntilAllReceived.finalize_internal` (lines 19-25), evaluated at
wall-clock `now`.  Returns `(warned, verdict)` or the raised error.  Mirrors
the source: the guard tests `num_received_results is None and timeout_at is
None`; otherwise it evaluates
`num_received_results >= num_receivers or time.time() > timeout_at` with
Python's left-to-right `or` short-circuit. -/
def BlockUntilAllReceived.finalize_internal (st : BlockUntilAllReceivedState) (now : ℤ) :
    Except PyError (Bool × Bool) :=
  if numReceivedResultsIsNone st.base && st.timeoutAt.isNone then
    .ok (true, true)
  else
    match pyGeNat st.base.numReceivedResults st.base.numReceivers with
    | .error e => .error e
    | .ok true => .ok (false, true)
    | .ok false =>
      match pyGtInt now st.timeoutAt with
      | .error e => .error e
      | .ok b => .ok (false, b)

/-- `ResponseHandlerBase.finalize` specialised to `BlockUntilAllReceived`:
calls `finalize_internal`; on `True` sets the `_finalized` event and returns
`True`, on `False` returns `False`; a raised error propagates. -/
def BlockUntilAllReceived.finalize (st : BlockUntilAllReceivedState) (now : ℤ) :
    Except PyError (BlockUntilAllReceivedState × Bool) :=
  match BlockUntilAllReceived.finalize_internal st now with
  | .error e => .error e
  | .ok (_, true) => .ok ({ st with base := { st.base with finalized := true } }, true)
  | .ok (_, false) => .ok (st, false)

/-- One sweep of `Node._check_response_handlers` (`node.py` lines 374-381) over
a snapshot of the cid-to-handler map: `finalize()` each handler and remove it
when the call returned `True`.  An exception raised by `finalize()` propagates
out of the loop (killing the sweeper thread), leaving the map as it was. -/
def Node.checkResponseHandlersOnce (now : ℤ) :
    List (String × BlockUntilAllReceivedState) →
    Except PyError (List (String × BlockUntilAllReceivedState))
  | [] => .ok []
  | (cid, rh) :: rest =>
    match BlockUntilAllReceived.finalize rh now with
    | .error e => .error e
    | .ok (_, true) => Node.checkResponseHandlersOnce now rest
    | .ok (rh', false) =>
      match Node.checkResponseHandlersOnce now rest with
      | .error e => .error e
      | .ok rest' => .ok ((cid, rh') :: rest')

/-- State of an `UpdateTimeoutPerReceive` handler: the inherited
`BlockUntilAllReceived` state plus the stored `timeout`. -/
structure UpdateTimeoutPerReceiveState where
  asBlock : BlockUntilAllReceivedState
  timeout : ℤ
  deriving DecidableEq

/-- `UpdateTimeoutPerReceive.__init__(timeout)` at wall-clock `now`. -/
def UpdateTimeoutPerReceive.init (timeout : ℤ) (now : ℤ) : UpdateTimeoutPerReceiveState :=
  { asBlock := BlockUntilAllReceived.init (some timeout) now, timeout := timeout }

/-- `add_response` on an `UpdateTimeoutPerReceive` handler.  The class does not
override `add_response`, so the call resolves to
`ResponseHandlerBase.add_response`, which appends and increments but never
touches `timeout_at`.  (The deadline refresh lives in `set_response`, which
`add_response` does not call.) -/
def UpdateTimeoutPerReceive.add_response (st : UpdateTimeoutPerReceiveState) (v : Value) :
    UpdateTimeoutPerReceiveState :=
  { st with asBlock := { st.asBlock with
      base := ResponseHandlerBase.add_response st.asBlock.base v } }

/-- `UpdateTimeoutPerReceive.set_response` (lines 44-46): its first statement
is `super().set_response(response)`, but no ancestor class
(`BlockUntilAllReceived`, `ResponseHandlerBase`, `Iterator`) defines
`set_response`, so the call raises `AttributeError` before the refresh
`self.timeout_at = time.time() + self.timeout` on the next line can run. -/
def UpdateTimeoutPerReceive.set_response (_st : UpdateTimeoutPerReceiveState)
    (_v : Value) (_now : ℤ) : Except PyError UpdateTimeoutPerReceiveState :=
  .error .attributeError

/-! ## Reconnect loop (`node.py` lines 362-372) -/

/-- Binding state of a Python local variable.  Relevant because
`except E as x:` compiles to a handler that deletes the binding of `x` when
the handler block exits (PEP 3110), leaving `x` unbound afterwards. -/
inductive PyLocal (α : Type) where
  | boundTo (v : α)
  | unbound
  deriving DecidableEq

/-- Value held by `last_err`: `none` is the initial `None`, `some ()` stands
for a caught `ConnectionFailedError` instance. -/
abbrev LastErr := Option Unit

/-- Outcome of `Node.__reconnect_to_backend`. -/
inductive ReconnectOutcome where
  | resumed (attemptsMade : Nat)     -- `reconnect()` succeeded; loop resumes
  | serverDisconnected (cause : LastErr)  -- raise exc.ServerDisconnectedError(last_err)
  | unboundLocalError                -- reading `last_err` after its binding was deleted
  deriving DecidableEq

/-- The `for i in range(reconnect_max_tries)` loop body of
`__reconnect_to_backend`.  `attemptSucceeds i` tells whether the `i`-th call
to `self._connection.reconnect()` returns (otherwise it raises
`ConnectionFailedError`).  On failure the `except ... as last_err` handler
runs `time.sleep` and then, on exit, deletes the binding of `last_err`.
After the loop, `raise exc.ServerDisconnectedError(last_err)` reads
`last_err`: reading an unbound local raises `UnboundLocalError`. -/
def reconnectLoop (attemptSucceeds : Nat → Bool) :
    Nat → Nat → PyLocal LastErr → ReconnectOutcome
  | 0, _, lastErr =>
    match lastErr with
    | .boundTo v => .serverDisconnected v
    | .unbound => .unboundLocalError
  | remaining + 1, i, _ =>
    if attemptSucceeds i then
      .resumed (i + 1)
    else
      reconnectLoop attemptSucceeds remaining (i + 1) .unbound

/-- `Node.__reconnect_to_backend(reconnect_max_tries, reconnect_interval)`:
`last_err = None`, then the retry loop. -/
def Node.reconnectToBackend (attemptSucceeds : Nat → Bool) (reconnectMaxTries : Nat) :
    ReconnectOutcome :=
  reconnectLoop attemptSucceeds reconnectMaxTries 0 (.boundTo none)

/-! ## Command wrapper (`commands/command_wrapper.py`) -/

/-- The option fields of a `CommandWrapper`: sender node id, correlation id,
and the inner command already in encoded (mapping) form. -/
structure CommandWrapper where
  nid : String
  cid : String
  cmd : Dict
  deriving DecidableEq

/-- Result of a command's `execute`: the `NoResponse` sentinel or a value. -/
inductive ExecResult where
  | noResponse
  | value (v : Value)
  deriving DecidableEq

/-- An `AddResponse{cid, response}` reply envelope (`commands/add_response.py`). -/
structure AddResponseCmd where
  cid : String
  response : Value
  deriving DecidableEq

/-- Side effects of `CommandWrapper.execute` on the node: the direct
`ctx.add_response(cid, result)` calls and the
`ctx.send_no_response(AddResponse(...), destination)` calls it performs. -/
structure WrapperEffects where
  addResponseCalls : List (String × Value)
  sendNoResponseCalls : List (AddResponseCmd × String)
  deriving DecidableEq

/-- No side effects. -/
def WrapperEffects.empty : WrapperEffects := ⟨[], []⟩

/-- `CommandWrapper.execute(ctx)` (lines 30-38), with the inner command's
execution abstracted by its result `innerResult`.  If the inner result is not
a `NoResponseType`: loopback (`self.nid == ctx.nid`) calls
`ctx.add_response(self.cid, response)`, otherwise
`ctx.send_no_response(AddResponse(cid=self.cid, response=response), self.nid)`.
The wrapper itself always returns `NoResponse`. -/
def CommandWrapper.execute (w : CommandWrapper) (ctxNid : String)
    (innerResult : ExecResult) : ExecResult × WrapperEffects :=
  match innerResult with
  | .noResponse => (.noResponse, WrapperEffects.empty)
  | .value v =>
    if w.nid = ctxNid then
      (.noResponse, ⟨[(w.cid, v)], []⟩)
    else
      (.noResponse, ⟨[], [(⟨w.cid, v⟩, w.nid)]⟩)

/-! ## JSON serializer (`serializers.py`) -/

/-- A command class: its stable `__cmd_name__` tag.  (Fields are carried by
the instances; the registry maps names to classes.) -/
structure CmdType where
  cmdName : String
  deriving DecidableEq

/-- A command instance: its class and the values of its declared `cfg.Option`
fields. -/
structure CmdInstance where
  typ : CmdType
  options : Dict
  deriving DecidableEq

/-- The `JSONSerializer._registry` mapping command names to classes. -/
abbrev Registry := List (String × CmdType)

/-- `cmd.to_dict(recursive=True, filter=cmd_to_dict_filter)`: the filter
(`utils.py` lines 136-138) keeps exactly the declared `cfg.Option` fields and
the lazy placeholder named `__cmd_name__`, which yields the class's
`__cmd_name__` tag. -/
def CommandBase.to_dict (c : CmdInstance) : Dict :=
  c.options ++ [("__cmd_name__", Value.str c.typ.cmdName)]

/-- `JSONSerializer.serialize` (lines 22-25): encode `cmd.to_dict(...)`.  The
byte coding of the mapping is delegated to the external `rin.jsonutils` coder,
which the spec places out of scope; the transport of the mapping is therefore
modelled as the identity, and `deserialize` below consumes the mapping form
(which the source also accepts directly). -/
def JSONSerializer.serialize (c : CmdInstance) : Dict := CommandBase.to_dict c

/-- `JSONSerializer.deserialize` (lines 27-39) applied to a mapping.  Returns
the result together with the caller's mapping as it stands afterwards: the
source executes `raw_data.pop("__cmd_name__")`, mutating the caller's dict in
place.  A missing `__cmd_name__` raises `InvalidFormatError` before the pop;
an unregistered name raises `CommandNotRegisteredError` after it; otherwise
the registered class is constructed from the remaining mapping. -/
def JSONSerializer.deserialize (registry : Registry) (raw : Dict) :
    (Except CuriumError CmdInstance) × Dict :=
  match Dict.lookup raw "__cmd_name__" with
  | none => (.error .invalidFormat, raw)
  | some nameVal =>
    let raw' := Dict.erase raw "__cmd_name__"
    match nameVal with
    | .str s =>
      match List.lookup s registry with
      | none => (.error .commandNotRegistered, raw')
      | some typ => (.ok ⟨typ, raw'⟩, raw')
    | _ => (.error .commandNotRegistered, raw')

/-- `JSONSerializer.register_cmd` (lines 41-49): registering a second class
under an already-registered name raises `CommandHasRegisteredError`;
re-registering the same class is a no-op. -/
def JSONSerializer.register_cmd (registry : Registry) (t : CmdType) :
    Except CuriumError Registry :=
  match List.lookup t.cmdName registry with
  | some existing =>
    if existing = t then .ok registry else .error .commandHasRegistered
  | none => .ok ((t.cmdName, t) :: registry)

/-- `CommandWrapper.get_cmd` (lines 40-44): passes `self.cmd` — the very dict
object stored in the wrapper — to the codec's `deserialize`, so the pop
performed there mutates the wrapper's `cmd` field.  Returns the decoded inner
command together with the wrapper as it stands afterwards. -/
def CommandWrapper.get_cmd (registry : Registry) (w : CommandWrapper) :
    (Except CuriumError CmdInstance) × CommandWrapper :=
  let r := JSONSerializer.deserialize registry w.cmd
  (r.1, { w with cmd := r.2 })

/-- The envelope produced by `CommandWrapper.to_dict` (lines 46-61, with
`recursive=False`): the option fields `nid`, `cid`, the already-encoded `cmd`
mapping as it stands at that moment, plus `__cmd_name__ = "__cmd_wrapper__"`. -/
structure WrapperEnvelope where
  nid : String
  cid : String
  cmd : Dict
  cmdName : String
  deriving DecidableEq

/-- `CommandWrapper.to_dict` as an envelope record. -/
def CommandWrapper.to_dict (w : CommandWrapper) : WrapperEnvelope :=
  ⟨w.nid, w.cid, w.cmd, "__cmd_wrapper__"⟩

/-! ## Redis connection send (`connections.py` lines 114-133, 179-181) -/

/-- The parts of `RedisConnection` state that `send` consults: whether
`connect()` has established `_pubsub` (`_verify_connected` raises
`NotConnectedError` when `_pubsub is None`), the `_ping_while_sending` flag,
and whether the liveness pong is observed within `_send_timeout`. -/
structure RedisConnectionState where
  connected : Bool
  pingWhileSending : Bool
  pongObserved : Bool
  deriving DecidableEq

/-- Result of a completed `RedisConnection.send`: whether the empty-destination
warning fired, the `(topic, payload)` pairs passed to `redis.publish`, and the
returned value. -/
structure SendResult where
  warnedEmpty : Bool
  published : List (String × String)
  returnValue : Nat
  deriving DecidableEq

/-- `RedisConnection.send(data, destinations)`.  In source order: the
empty-destination short-circuit (warning, `return 0`) comes first, then
`_verify_name` on each destination (`InvalidChannelError` when a name contains
`'|'`), then `_verify_connected` (`NotConnectedError`), then the liveness ping
(`ServerDisconnectedError` when the pong is not observed in time), and finally
one `publish` to `'|' + '|'.join(destinations) + '|'`, whose subscriber count
(`brokerCount`) is returned. -/
def RedisConnection.send (st : RedisConnectionState) (brokerCount : Nat)
    (data : String) (destinations : List String) : Except CuriumError SendResult :=
  if destinations.isEmpty then
    .ok ⟨true, [], 0⟩
  else if destinations.any (fun name => name.data.contains '|') then
    .error .invalidChannel
  else if !st.connected then
    .error .notConnected
  else if st.pingWhileSending && !st.pongObserved then
    .error .serverDisconnected
  else
    .ok ⟨false, [("|" ++ String.intercalate "|" destinations ++ "|", data)], brokerCount⟩

/-! ## Node.send_no_response (`node.py` lines 179-200) -/

/-- The `destinations` argument of `send_no_response`: a bare channel name or
an iterable of names. -/
inductive Destinations where
  | str (s : String)
  | list (l : List String)
  deriving DecidableEq

/-- Outcome of `Node.send_no_response`: whether the reduce-to-`all`
`RuntimeWarning` fired, plus the connection-level send result. -/
structure NodeSendOutcome where
  warnedAllReduced : Bool
  result : SendResult
  deriving DecidableEq

/-- `Node.send_no_response(cmd, destinations)`: a bare string becomes a
singleton list; when `'all' in destinations and len(destinations) > 1` the
list is replaced by `['all']` with a `RuntimeWarning`; then
`destinations = set(destinations)` (modelled by `List.dedup`; Python's set
iteration order is unspecified, `dedup` fixes one enumeration) and the
serialized command is handed to `self._connection.send`, whose return value
is passed through. -/
def Node.send_no_response (st : RedisConnectionState) (brokerCount : Nat)
    (data : String) (destinations : Destinations) : Except CuriumError NodeSendOutcome :=
  let dests :=
    match destinations with
    | .str s => [s]
    | .list l => l
  let warned : Bool := decide ("all" ∈ dests ∧ 1 < dests.length)
  let dests' := if "all" ∈ dests ∧ 1 < dests.length then ["all"] else dests
  match RedisConnection.send st brokerCount data dests'.dedup with
  | .error e => .error e
  | .ok r => .ok ⟨warned, r⟩

/-! ## Dictionary lemmas -/

/-- Looking up a key appended at the end of a dict that does not already
contain it. -/
theorem dict_lookup_append_key (opts : Dict) (k : String) (v : Value)
    (h : k ∉ Dict.keys opts) : Dict.lookup (opts ++ [(k, v)]) k = some v := by
  induction opts with
  | nil => simp [Dict.lookup]
  | cons p rest ih =>
    obtain ⟨k', v'⟩ := p
    simp only [Dict.keys, List.map_cons, List.mem_cons] at h
    push_neg at h
    simpa [Dict.lookup, h.1] using ih (by simpa [Dict.keys] using h.2)

/-- Erasing a key appended at the end of a dict that does not already contain
it restores the original dict. -/
theorem dict_erase_append_key (opts : Dict) (k : String) (v : Value)
    (h : k ∉ Dict.keys opts) : Dict.erase (opts ++ [(k, v)]) k = opts := by
  induction opts with
  | nil => simp [Dict.erase]
  | cons p rest ih =>
    obtain ⟨k', v'⟩ := p
    simp only [Dict.keys, List.map_cons, List.mem_cons] at h
    push_neg at h
    have hk : k' ≠ k := fun e => h.1 e.symm
    simpa [Dict.erase, hk] using ih (by simpa [Dict.keys] using h.2)

/-- After erasing a key it can no longer be looked up. -/
theorem dict_lookup_erase (d : Dict) (k : String) :
    Dict.lookup (Dict.erase d k) k = none := by
  induction d with
  | nil => rfl
  | cons p rest ih =>
    obtain ⟨k', v'⟩ := p
    by_cases hk : k' = k
    · simpa [Dict.erase, hk] using ih
    · simpa [Dict.erase, Dict.lookup, hk, Ne.symm hk] using ih

/-- A `finalize()` call on an already-finalized handler leaves the state
untouched. -/
theorem applyOp_fin_of_finalized (st : ResponseHandlerState) (b : Bool)
    (h : st.finalized = true) :
    ResponseHandlerBase.applyOp st (RHOp.fin b) = st := by
  cases st
  cases b <;> simp_all [ResponseHandlerBase.applyOp]

/-! ## Claim theorems -/

/-- C1: the claim says `BlockUntilAllReceived.finalize()` returns true exactly
when `num_received_results ≥ num_receivers` or the deadline has passed, false
otherwise, and in particular never raises when only a timeout is known.  The
code evaluates `self.num_received_results >= self.num_receivers` first, so
with `num_receivers = None` (and a timeout present and already expired, first
conjunct) it raises `TypeError` instead of returning a boolean; with a known
`num_receivers` but `timeout = None` it raises `TypeError` once the count test
fails (last conjunct).  The middle conjuncts confirm the claimed behaviour
when both bounds are known. -/
theorem blockUntilAllReceived_finalize_behaviour :
    BlockUntilAllReceived.finalize_internal (BlockUntilAllReceived.init (some 10) 0) 20
      = .error PyError.typeError
    ∧ BlockUntilAllReceived.finalize_internal
        ⟨⟨[Value.int 1, Value.int 2], 2, false, some 2⟩, some 10, false⟩ 1 = .ok (false, true)
    ∧ BlockUntilAllReceived.finalize_internal
        ⟨⟨[Value.int 1], 1, false, some 2⟩, some 10, false⟩ 1 = .ok (false, false)
    ∧ BlockUntilAllReceived.finalize_internal
        ⟨⟨[], 0, false, some 5⟩, some 10, false⟩ 20 = .ok (false, true)
    ∧ BlockUntilAllReceived.finalize_internal
        ⟨⟨[Value.int 1], 1, false, some 2⟩, none, true⟩ 1 = .error PyError.typeError :=
  ⟨rfl, rfl, rfl, rfl, rfl⟩

/-- C2: the claim says a handler with `num_receivers = None` and
`timeout = None` returns true from its first `finalize()` with a warning, so
the sweeper drops it.  The guard on line 20 of `response_handles.py` tests
`self.num_received_results is None` — the `int` counter, never `None` —
instead of `self.num_receivers is None`, so the degenerate branch is
unreachable and line 25 raises `TypeError` at `0 >= None`; the sweeper's
`finalize()` call propagates the error instead of dropping the handler. -/
theorem blockUntilAllReceived_degenerate_raises :
    BlockUntilAllReceived.finalize_internal (BlockUntilAllReceived.init none 0) 0
      = .error PyError.typeError
    ∧ BlockUntilAllReceived.init none 0 = ⟨ResponseHandlerBase.initState, none, true⟩
    ∧ Node.checkResponseHandlersOnce 0 [("0", BlockUntilAllReceived.init none 0)]
      = .error PyError.typeError :=
  ⟨rfl, rfl, rfl⟩

/-- C3: the claim says exhausting all `reconnect_max_tries` failing attempts
raises `ServerDisconnected`, and a success on the i-th attempt resumes after
exactly i attempts.  The resume half holds (third and fourth conjuncts), but
on exhaustion the code raises `UnboundLocalError`: the binding made by
`except exc.ConnectionFailedError as last_err:` is deleted when the handler
block exits, so the final `raise exc.ServerDisconnectedError(last_err)` reads
an unbound local (first two conjuncts).  Only with `reconnect_max_tries = 0`,
when no handler ever ran, is `ServerDisconnectedError(None)` raised (last
conjunct). -/
theorem reconnectToBackend_exhaustion_behaviour :
    Node.reconnectToBackend (fun _ => false) 1 = ReconnectOutcome.unboundLocalError
    ∧ Node.reconnectToBackend (fun _ => false) 10 = ReconnectOutcome.unboundLocalError
    ∧ Node.reconnectToBackend (fun i => decide (i = 2)) 10 = ReconnectOutcome.resumed 3
    ∧ Node.reconnectToBackend (fun i => decide (i = 0)) 10 = ReconnectOutcome.resumed 1
    ∧ Node.reconnectToBackend (fun _ => false) 0 = ReconnectOutcome.serverDisconnected none :=
  ⟨rfl, rfl, rfl, rfl, rfl⟩

/-- C4: the claim says every `add_response` on an `UpdateTimeoutPerReceive`
handler resets `timeout_at` to `now + timeout`.  In the code the refresh lives
in `set_response`, which `ResponseHandlerBase.add_response` never calls, so a
handler created at time 0 with timeout 5 still has `timeout_at = 5` after a
response is added (the response is recorded, third conjunct); calling
`set_response` directly would raise `AttributeError` at
`super().set_response(response)`. -/
theorem updateTimeoutPerReceive_add_response_no_refresh :
    (UpdateTimeoutPerReceive.add_response (UpdateTimeoutPerReceive.init 5 0)
        (Value.int 1)).asBlock.timeoutAt = some 5
    ∧ UpdateTimeoutPerReceive.set_response (UpdateTimeoutPerReceive.init 5 0) (Value.int 1) 3
      = .error PyError.attributeError
    ∧ (UpdateTimeoutPerReceive.add_response (UpdateTimeoutPerReceive.init 5 0)
        (Value.int 1)).asBlock.base.numReceivedResults = 1 :=
  ⟨rfl, rfl, rfl⟩

/-- C5: `CommandWrapper.execute` always returns `NoResponse`; when the inner
result is `NoResponse` it performs no effect; when the inner result is a value
it calls `ctx.add_response(cid, v)` on loopback (`nid = ctx.nid`) and
otherwise sends `AddResponse{cid, v}` via `send_no_response` addressed to the
wrapper's `nid`. -/
theorem commandWrapper_execute_routing (w : CommandWrapper) (ctxNid : String)
    (r : ExecResult) (v : Value) :
    (CommandWrapper.execute w ctxNid r).1 = ExecResult.noResponse
    ∧ CommandWrapper.execute w ctxNid ExecResult.noResponse
        = (ExecResult.noResponse, WrapperEffects.empty)
    ∧ (CommandWrapper.execute w ctxNid (ExecResult.value v)).2
        = if w.nid = ctxNid then ⟨[(w.cid, v)], []⟩ else ⟨[], [(⟨w.cid, v⟩, w.nid)]⟩ := by
  refine ⟨?_, rfl, ?_⟩
  · cases r with
    | noResponse => rfl
    | value v' =>
      simp only [CommandWrapper.execute]
      split <;> rfl
  · simp only [CommandWrapper.execute]
    split <;> rfl

/-- C6: for a command class registered under its `__cmd_name__` and an
instance whose declared options do not shadow the `__cmd_name__` tag,
decoding the encoding yields an instance of the registered class with equal
option fields (and hence the registered `__cmd_name__`). -/
theorem jsonSerializer_round_trip (registry : Registry) (C : CmdType) (c : CmdInstance)
    (htyp : c.typ = C)
    (hreg : List.lookup C.cmdName registry = some C)
    (hname : "__cmd_name__" ∉ Dict.keys c.options) :
    (JSONSerializer.deserialize registry (JSONSerializer.serialize c)).1
      = .ok ⟨C, c.options⟩ := by
  subst htyp
  have h1 := dict_lookup_append_key c.options "__cmd_name__" (Value.str c.typ.cmdName) hname
  have h2 := dict_erase_append_key c.options "__cmd_name__" (Value.str c.typ.cmdName) hname
  simp [JSONSerializer.deserialize, JSONSerializer.serialize, CommandBase.to_dict,
    h1, h2, hreg]

/-- Witness for the round-trip law at a concrete registry and instance. -/
theorem jsonSerializer_round_trip_witness :
    (JSONSerializer.deserialize [("my_command", ⟨"my_command"⟩)]
        (JSONSerializer.serialize ⟨⟨"my_command"⟩, [("x", Value.int 1)]⟩)).1
      = .ok ⟨⟨"my_command"⟩, [("x", Value.int 1)]⟩ :=
  jsonSerializer_round_trip [("my_command", ⟨"my_command"⟩)] ⟨"my_command"⟩
    ⟨⟨"my_command"⟩, [("x", Value.int 1)]⟩ rfl (by decide) (by decide)

/-- C7 counterexample: with an empty destination list nothing is published and
`0` is returned regardless of the broker's count (here 5), refuting the
claim's "publishes once ... and the broker's subscriber count is returned"
for every destination argument. -/
theorem sendNoResponse_empty_counterexample :
    Node.send_no_response ⟨true, true, true⟩ 5 "data" (Destinations.list [])
      = .ok ⟨false, ⟨true, [], 0⟩⟩ :=
  rfl

/-- C7 (amended): for a connected node and a nonempty list of valid channel
names, `send_no_response` normalises as claimed: a bare string is the
singleton list; `{"all"} ∪ others` collapses to `["all"]` with a warning;
otherwise the set of names (deduplicated, membership preserved) is joined
between `'|'` delimiters; exactly one publish happens and the broker's count
is returned.  With an empty list nothing is published and 0 is returned. -/
theorem sendNoResponse_normalisation (st : RedisConnectionState) (brokerCount : Nat)
    (data : String) (l : List String)
    (hne : l ≠ [])
    (hvalid : ∀ x ∈ l, x.data.contains '|' = false)
    (hconn : st.connected = true)
    (hpong : st.pongObserved = true) :
    (∀ s : String, Node.send_no_response st brokerCount data (Destinations.str s)
        = Node.send_no_response st brokerCount data (Destinations.list [s]))
    ∧ Node.send_no_response st brokerCount data (Destinations.list l)
        = .ok ⟨decide ("all" ∈ l ∧ 1 < l.length),
               ⟨false,
                [((if "all" ∈ l ∧ 1 < l.length then "|all|"
                   else "|" ++ String.intercalate "|" l.dedup ++ "|"), data)],
                brokerCount⟩⟩
    ∧ l.dedup.Nodup
    ∧ (∀ x, x ∈ l.dedup ↔ x ∈ l) := by
  obtain ⟨c, pw, po⟩ := st
  have hc : c = true := hconn
  have hp : po = true := hpong
  subst hc hp
  refine ⟨fun s => rfl, ?_, List.nodup_dedup l, fun x => List.mem_dedup⟩
  by_cases hall : "all" ∈ l ∧ 1 < l.length
  · simp only [Node.send_no_response, if_pos hall, decide_eq_true hall]
    cases pw <;> rfl
  · have hde : l.dedup ≠ [] := fun h0 => hne ((List.dedup_eq_nil l).mp h0)
    have hany : l.dedup.any (fun name => name.data.contains '|') = false := by
      rw [List.any_eq_false]
      intro x hx
      rw [hvalid x (List.mem_dedup.mp hx)]
      exact Bool.false_ne_true
    have hsend : RedisConnection.send ⟨true, pw, true⟩ brokerCount data l.dedup
        = .ok ⟨false, [("|" ++ String.intercalate "|" l.dedup ++ "|", data)], brokerCount⟩ := by
      unfold RedisConnection.send
      rw [List.isEmpty_eq_false.mpr hde, hany]
      cases pw <;> rfl
    simp only [Node.send_no_response, if_neg hall, decide_eq_false hall, hsend]

/-- Witness for the destination normalisation at `["a", "a", "b"]`. -/
theorem sendNoResponse_normalisation_witness :
    Node.send_no_response ⟨true, true, true⟩ 7 "d" (Destinations.list ["a", "a", "b"])
      = .ok ⟨decide ("all" ∈ (["a", "a", "b"] : List String)
                      ∧ 1 < (["a", "a", "b"] : List String).length),
             ⟨false,
              [((if "all" ∈ (["a", "a", "b"] : List String)
                    ∧ 1 < (["a", "a", "b"] : List String).length then "|all|"
                 else "|" ++ String.intercalate "|"
                        (["a", "a", "b"] : List String).dedup ++ "|"), "d")],
              7⟩⟩ :=
  (sendNoResponse_normalisation ⟨true, true, true⟩ 7 "d" ["a", "a", "b"]
      (by decide) (by decide) rfl rfl).2.1

/-- C8 counterexample: a handler can be finalized (degenerate verdict true)
and then, before the sweeper removes it, receive a further `add_response`;
`get` before and after that call observes different lists, refuting "after
finalization the results sequence is frozen for readers". -/
theorem responseHandler_frozen_counterexample :
    (ResponseHandlerBase.applyOp ResponseHandlerBase.initState (RHOp.fin true)).finalized = true
    ∧ ResponseHandlerBase.get
        (ResponseHandlerBase.applyOp ResponseHandlerBase.initState (RHOp.fin true))
      = some []
    ∧ ResponseHandlerBase.get
        (ResponseHandlerBase.applyOp
          (ResponseHandlerBase.applyOp ResponseHandlerBase.initState (RHOp.fin true))
          (RHOp.add (Value.int 42)))
      = some [Value.int 42]
    ∧ some ([] : List Value) ≠ some [Value.int 42] := by
  refine ⟨rfl, rfl, rfl, by decide⟩

/-- C8 (amended): the finalized latch is monotone — no operation ever clears
it, so it is set at most once and never reverts — and `get` after
finalization returns the accumulated list, which is stable across further
`finalize()` calls; it is only further `add_response` (or iteration) that
still mutates the observed list. -/
theorem responseHandler_latch_monotone (st : ResponseHandlerState) (ops : List RHOp)
    (h : st.finalized = true) :
    (ResponseHandlerBase.applyOps st ops).finalized = true
    ∧ (ops.all RHOp.isFin = true →
        ResponseHandlerBase.get (ResponseHandlerBase.applyOps st ops)
          = ResponseHandlerBase.get st) := by
  induction ops generalizing st with
  | nil => exact ⟨h, fun _ => rfl⟩
  | cons op rest ih =>
    have hstep : (ResponseHandlerBase.applyOp st op).finalized = true := by
      cases op with
      | add v => exact h
      | fin b => cases b <;> simp [ResponseHandlerBase.applyOp, h]
      | pop => exact h
    refine ⟨(ih _ hstep).1, fun hall => ?_⟩
    simp only [List.all_cons, Bool.and_eq_true] at hall
    have hfin : ResponseHandlerBase.applyOp st op = st := by
      cases op with
      | add v => simp [RHOp.isFin] at hall
      | fin b => exact applyOp_fin_of_finalized st b h
      | pop => simp [RHOp.isFin] at hall
    calc ResponseHandlerBase.get (ResponseHandlerBase.applyOps st (op :: rest))
        = ResponseHandlerBase.get
            (ResponseHandlerBase.applyOps (ResponseHandlerBase.applyOp st op) rest) := rfl
      _ = ResponseHandlerBase.get (ResponseHandlerBase.applyOp st op) :=
          (ih _ hstep).2 hall.2
      _ = ResponseHandlerBase.get st := by rw [hfin]

/-- Witness for latch monotonicity on a finalized handler holding one result,
swept twice more. -/
theorem responseHandler_latch_monotone_witness :
    (ResponseHandlerBase.applyOps ⟨[Value.int 7], 1, true, some 1⟩
        [RHOp.fin false, RHOp.fin true]).finalized = true :=
  (responseHandler_latch_monotone ⟨[Value.int 7], 1, true, some 1⟩
    [RHOp.fin false, RHOp.fin true] rfl).1

/-- C9: `RedisConnection.send` with an empty destination collection returns 0
without publishing and without raising, for every connection state — in
particular when never connected — because the empty-destination short-circuit
precedes name validation, the connection check and the liveness ping; with a
nonempty destination list the unconnected state does raise `NotConnected`
(second conjunct). -/
theorem redisConnection_send_empty_short_circuit (st : RedisConnectionState)
    (brokerCount : Nat) (data : String) :
    RedisConnection.send st brokerCount data [] = .ok ⟨true, [], 0⟩
    ∧ RedisConnection.send ⟨false, true, true⟩ brokerCount data ["a"]
      = .error CuriumError.notConnected := by
  refine ⟨rfl, ?_⟩
  simp [RedisConnection.send]

/-- C10: `JSONSerializer.deserialize` on a mapping that carries
`__cmd_name__` removes that key from the caller's mapping as a side effect;
consequently after `CommandWrapper.get_cmd` the wrapper's `cmd` field no
longer contains `__cmd_name__` and the wrapper's envelope differs from the
one it would have produced before. -/
theorem jsonSerializer_deserialize_mutates_mapping (registry : Registry)
    (w : CommandWrapper) (v : Value)
    (h : Dict.lookup w.cmd "__cmd_name__" = some v) :
    (JSONSerializer.deserialize registry w.cmd).2 = Dict.erase w.cmd "__cmd_name__"
    ∧ Dict.lookup (CommandWrapper.get_cmd registry w).2.cmd "__cmd_name__" = none
    ∧ CommandWrapper.to_dict (CommandWrapper.get_cmd registry w).2
        ≠ CommandWrapper.to_dict w := by
  have hsnd : (JSONSerializer.deserialize registry w.cmd).2
      = Dict.erase w.cmd "__cmd_name__" := by
    cases v with
    | str s =>
      cases hl : List.lookup s registry with
      | none => simp [JSONSerializer.deserialize, h, hl]
      | some t => simp [JSONSerializer.deserialize, h, hl]
    | int n => simp [JSONSerializer.deserialize, h]
    | bool b => simp [JSONSerializer.deserialize, h]
    | null => simp [JSONSerializer.deserialize, h]
  have hcmd : (CommandWrapper.get_cmd registry w).2.cmd
      = Dict.erase w.cmd "__cmd_name__" := hsnd
  refine ⟨hsnd, ?_, ?_⟩
  · rw [hcmd, dict_lookup_erase]
  · intro heq
    have hfield := congrArg WrapperEnvelope.cmd heq
    simp only [CommandWrapper.to_dict] at hfield
    rw [hcmd] at hfield
    have := dict_lookup_erase w.cmd "__cmd_name__"
    rw [hfield, h] at this
    exact Option.noConfusion this

/-- Witness for the in-place pop at a concrete wrapper. -/
theorem jsonSerializer_deserialize_mutates_mapping_witness :
    (JSONSerializer.deserialize []
        [("__cmd_name__", Value.str "inner"), ("x", Value.int 3)]).2
      = Dict.erase [("__cmd_name__", Value.str "inner"), ("x", Value.int 3)] "__cmd_name__"
    ∧ Dict.lookup (CommandWrapper.get_cmd []
          ⟨"n1", "0", [("__cmd_name__", Value.str "inner"), ("x", Value.int 3)]⟩).2.cmd
        "__cmd_name__" = none
    ∧ CommandWrapper.to_dict (CommandWrapper.get_cmd []
          ⟨"n1", "0", [("__cmd_name__", Value.str "inner"), ("x", Value.int 3)]⟩).2
      ≠ CommandWrapper.to_dict
          ⟨"n1", "0", [("__cmd_name__", Value.str "inner"), ("x", Value.int 3)]⟩ :=
  jsonSerializer_deserialize_mutates_mapping []
    ⟨"n1", "0", [("__cmd_name__", Value.str "inner"), ("x", Value.int 3)]⟩
    (Value.str "inner") (by decide)

end Curium
